import Mathlib

/-!
# cscore: the handle-based C++ interface (`include/cscore_cpp.h`)

A shallow embedding of the value types declared in `cscore_cpp.h`
(`VideoMode`, `RawEvent` and their constructors) and of the components the
header only declares (handle registry, property subsystem, video-mode
catalog), followed by the properties established about them.

C++ `int` values are carried as `Int`: no constructor performs arithmetic, so
no wrap-around can occur.  A data member that has no default member
initialiser and that a constructor does not store to is indeterminate in C++;
it is carried as `none`.
-/

namespace cs

/-! ## What `cscore_c.h` supplies -/

/-- `typedef int CS_Handle;` -/
abbrev CS_Handle := Int
/-- A `CS_Handle` naming a source. -/
abbrev CS_Source := CS_Handle
/-- A `CS_Handle` naming a sink. -/
abbrev CS_Sink := CS_Handle
/-- A `CS_Handle` naming a property. -/
abbrev CS_Property := CS_Handle

/-- The integer constants of `cscore_c.h` that `cscore_cpp.h` refers to.  That
header is not among the sources, so the values are taken as a parameter of
everything that reads them. -/
structure CscoreC where
  CS_INVALID_HANDLE : Int
  CS_PIXFMT_UNKNOWN : Int
  CS_PIXFMT_MJPEG : Int
  CS_PIXFMT_YUYV : Int
  CS_PIXFMT_RGB565 : Int
  deriving DecidableEq, Repr

/-- Modelled from the spec: `CS_PropertyType`, declared in `cscore_c.h` which
is not among the sources.  The spec (section 3, Property) gives the types a
property can have: boolean, integer, string, enumerated. -/
inductive CS_PropertyType where
  | kBoolean
  | kInteger
  | kString
  | kEnum
  deriving DecidableEq, Repr

/-! ## `struct VideoMode` -/

/-- `struct VideoMode : public CS_VideoMode`: the four `int` members. -/
structure VideoMode where
  pixelFormat : Int
  width : Int
  height : Int
  fps : Int
  deriving DecidableEq, Repr

namespace VideoMode

/-- `enum VideoMode::PixelFormat`. -/
inductive PixelFormat where
  | kUnknown
  | kMJPEG
  | kYUYV
  | kRGB565
  deriving DecidableEq, Repr

/-- The value of an enumerator: `kUnknown = CS_PIXFMT_UNKNOWN`, and so on. -/
def PixelFormat.toInt (c : CscoreC) : PixelFormat → Int
  | .kUnknown => c.CS_PIXFMT_UNKNOWN
  | .kMJPEG => c.CS_PIXFMT_MJPEG
  | .kYUYV => c.CS_PIXFMT_YUYV
  | .kRGB565 => c.CS_PIXFMT_RGB565

/-- `VideoMode()`: every member is assigned the literal `0`. -/
def ctor : VideoMode :=
  { pixelFormat := 0, width := 0, height := 0, fps := 0 }

/-- `VideoMode(PixelFormat pixelFormat_, int width_, int height_, int fps_)`. -/
def ctor4 (c : CscoreC) (pixelFormat_ : PixelFormat) (width_ height_ fps_ : Int) : VideoMode :=
  { pixelFormat := pixelFormat_.toInt c, width := width_, height := height_, fps := fps_ }

/-- `explicit operator bool() const { return pixelFormat == kUnknown; }` -/
def operatorBool (c : CscoreC) (m : VideoMode) : Bool :=
  m.pixelFormat == PixelFormat.kUnknown.toInt c

end VideoMode

/-! ## `struct RawEvent` -/

/-- `enum RawEvent::Type`.  The enumerators take their values from
`cscore_c.h`; the constructors only compare them for equality. -/
inductive EventType where
  | kSourceCreated
  | kSourceDestroyed
  | kSourceConnected
  | kSourceDisconnected
  | kSourceVideoModesUpdated
  | kSourceVideoModeChanged
  | kSinkCreated
  | kSinkDestroyed
  | kSinkEnabled
  | kSinkDisabled
  | kSourcePropertyCreated
  | kSourcePropertyValueUpdated
  | kSourcePropertyChoicesUpdated
  deriving DecidableEq, Repr

/-- The four `kSink*` enumerators. -/
def EventType.isSink : EventType → Bool
  | .kSinkCreated | .kSinkDestroyed | .kSinkEnabled | .kSinkDisabled => true
  | _ => false

/-- The nine `kSource*` enumerators. -/
def EventType.isSource : EventType → Bool
  | .kSourceCreated | .kSourceDestroyed | .kSourceConnected | .kSourceDisconnected
  | .kSourceVideoModesUpdated | .kSourceVideoModeChanged | .kSourcePropertyCreated
  | .kSourcePropertyValueUpdated | .kSourcePropertyChoicesUpdated => true
  | _ => false

/-- `struct RawEvent`, members in declaration order.  `type`,
`propertyHandle`, `propertyType` and `value` have no default member
initialiser. -/
structure RawEvent where
  type : Option EventType
  sourceHandle : CS_Source
  sinkHandle : CS_Sink
  name : String
  mode : VideoMode
  propertyHandle : Option CS_Property
  propertyType : Option CS_PropertyType
  value : Option Int
  valueStr : String
  deriving DecidableEq, Repr

namespace RawEvent

/-- `RawEvent() = default;`: the default member initialisers alone. -/
def ctor (c : CscoreC) : RawEvent :=
  { type := none
    sourceHandle := c.CS_INVALID_HANDLE
    sinkHandle := c.CS_INVALID_HANDLE
    name := ""
    mode := VideoMode.ctor
    propertyHandle := none
    propertyType := none
    value := none
    valueStr := "" }

/-- `RawEvent(llvm::StringRef name_, CS_Handle handle_, RawEvent::Type type_)`:
the member initialisers store `type` and `name`, then the body stores the
handle into `sinkHandle` or `sourceHandle`. -/
def ctor3 (c : CscoreC) (name_ : String) (handle_ : CS_Handle) (type_ : EventType) : RawEvent :=
  let e : RawEvent := { ctor c with type := some type_, name := name_ }
  if type_ = .kSinkCreated ∨ type_ = .kSinkDestroyed ∨
      type_ = .kSinkEnabled ∨ type_ = .kSinkDisabled then
    { e with sinkHandle := handle_ }
  else
    { e with sourceHandle := handle_ }

/-- `RawEvent(llvm::StringRef name_, CS_Source source_, const VideoMode& mode_)`. -/
def ctorMode (c : CscoreC) (name_ : String) (source_ : CS_Source) (mode_ : VideoMode) : RawEvent :=
  { ctor c with
    type := some .kSourceVideoModeChanged
    sourceHandle := source_
    name := name_
    mode := mode_ }

/-- `RawEvent(llvm::StringRef name_, CS_Source source_, RawEvent::Type type_,
CS_Property property_, CS_PropertyType propertyType_, int value_,
llvm::StringRef valueStr_)`. -/
def ctorProperty (c : CscoreC) (name_ : String) (source_ : CS_Source) (type_ : EventType)
    (property_ : CS_Property) (propertyType_ : CS_PropertyType) (value_ : Int)
    (valueStr_ : String) : RawEvent :=
  { ctor c with
    type := some type_
    sourceHandle := source_
    name := name_
    propertyHandle := some property_
    propertyType := some propertyType_
    value := some value_
    valueStr := valueStr_ }

end RawEvent

/-- A header with the pixel formats numbered in declaration order from `0`
and `-2000` as the invalid handle. -/
def sampleHeader : CscoreC :=
  { CS_INVALID_HANDLE := -2000
    CS_PIXFMT_UNKNOWN := 0
    CS_PIXFMT_MJPEG := 1
    CS_PIXFMT_YUYV := 2
    CS_PIXFMT_RGB565 := 3 }

/-! ## Components that `cscore_cpp.h` only declares

The header declares `CopySource`, `ReleaseSource`, `CopySink`, `ReleaseSink`,
`GetProperty`, `SetProperty`, `GetSourceVideoMode`, `SetSourceResolution`, ...
without bodies.  Their behaviour is taken from the specification; the events
they enqueue are built with the `RawEvent` constructors above. -/

/-- Modelled from the spec: the status output of a fallible call (`CS_Status`,
whose values `cscore_c.h` declares).  Section 6 lists the values. -/
inductive Status where
  | Ok
  | InvalidHandle
  | InvalidParameter
  | ValueOutOfRange
  | ValueNotSupported
  | PropertyExists
  | PropertyNotFound
  | WrongPropertyType
  | EmptyValue
  | ReadFailed
  | ResourceNotAvailable
  deriving DecidableEq, Repr

/-! ### Handle registry (spec 4.1, invariants I1 and I2) -/

/-- Modelled from the spec: the type tag of a registry object; only sources
and sinks are reference counted by copy and release calls. -/
inductive ObjectKind where
  | source
  | sink
  deriving DecidableEq, Repr

/-- Modelled from the spec: the registry entry of a live source or sink. -/
structure Object where
  kind : ObjectKind
  name : String
  refcount : Nat
  deriving DecidableEq, Repr

/-- Modelled from the spec: what the registry does that an observer can order
in time: handing an event to the notifier, and making a handle invalid. -/
inductive Action where
  | notified (e : RawEvent)
  | invalidated (h : CS_Handle)
  deriving DecidableEq, Repr

/-- Modelled from the spec: the handle registry, whose implementation is not
among the sources.  `objects` is the slot arena indexed by handle, `next` the
first index never handed out, `trace` the actions taken so far, oldest
first. -/
structure Registry where
  objects : CS_Handle → Option Object
  next : Nat
  trace : List Action

/-- The kind of the created event of an object. -/
def ObjectKind.createdType : ObjectKind → EventType
  | .source => .kSourceCreated
  | .sink => .kSinkCreated

/-- The kind of the destroyed event of an object. -/
def ObjectKind.destroyedType : ObjectKind → EventType
  | .source => .kSourceDestroyed
  | .sink => .kSinkDestroyed

namespace Registry

/-- Modelled from the spec: `resolve(handle) -> object-or-NotFound` (4.1).  By
I1 a handle is valid iff its reference count is positive; the type tag of the
handle has to match the kind asked for. -/
def resolve (r : Registry) (k : ObjectKind) (h : CS_Handle) : Option Object :=
  match r.objects h with
  | some o => if o.kind = k ∧ 0 < o.refcount then some o else none
  | none => none

/-- Modelled from the spec: appending an event to the notifier queue (4.6). -/
def notify (r : Registry) (e : RawEvent) : Registry :=
  { r with trace := r.trace ++ [Action.notified e] }

/-- Modelled from the spec: the index of the slot the next creation uses.  No
handle ever equals the invalid sentinel (section 3, Handle). -/
def fresh (c : CscoreC) (r : Registry) : Nat :=
  if (r.next : Int) = c.CS_INVALID_HANDLE then r.next + 1 else r.next

/-- Modelled from the spec: `create(kind, payload) -> handle` (4.1, I2).
Always succeeds, allocates a fresh slot, sets the reference count to 1 and
emits the created event. -/
def create (c : CscoreC) (k : ObjectKind) (name : String) (r : Registry) :
    CS_Handle × Registry :=
  let h : CS_Handle := (r.fresh c : Nat)
  let r1 : Registry :=
    { r with
      objects := Function.update r.objects h (some { kind := k, name := name, refcount := 1 })
      next := r.fresh c + 1 }
  (h, r1.notify (RawEvent.ctor3 c name h k.createdType))

/-- Modelled from the spec: `retain(handle)` (4.1, I2): every copy increments
the reference count; an invalid handle is reported through the status. -/
def retain (c : CscoreC) (k : ObjectKind) (h : CS_Handle) (r : Registry) :
    CS_Handle × Status × Registry :=
  match r.resolve k h with
  | none => (c.CS_INVALID_HANDLE, Status.InvalidHandle, r)
  | some o =>
    (h, Status.Ok,
      { r with objects := Function.update r.objects h (some { o with refcount := o.refcount + 1 }) })

/-- Modelled from the spec: `release(handle)` (4.1, I2): every release
decrements the reference count; when it reaches 0 the object is destroyed,
and the destroyed event is emitted before the handle becomes invalid. -/
def release (c : CscoreC) (k : ObjectKind) (h : CS_Handle) (r : Registry) :
    Status × Registry :=
  match r.resolve k h with
  | none => (Status.InvalidHandle, r)
  | some o =>
    if o.refcount = 1 then
      let r1 := r.notify (RawEvent.ctor3 c o.name h k.destroyedType)
      (Status.Ok,
        { r1 with
          objects := Function.update r1.objects h none
          trace := r1.trace ++ [Action.invalidated h] })
    else
      (Status.Ok,
        { r with objects := Function.update r.objects h (some { o with refcount := o.refcount - 1 }) })

end Registry

/-- Modelled from the spec: `CopySource(source, status)`. -/
def CopySource (c : CscoreC) (source : CS_Source) (r : Registry) : CS_Source × Status × Registry :=
  r.retain c .source source

/-- Modelled from the spec: `ReleaseSource(source, status)`. -/
def ReleaseSource (c : CscoreC) (source : CS_Source) (r : Registry) : Status × Registry :=
  r.release c .source source

/-- Modelled from the spec: `CopySink(sink, status)`. -/
def CopySink (c : CscoreC) (sink : CS_Sink) (r : Registry) : CS_Sink × Status × Registry :=
  r.retain c .sink sink

/-- Modelled from the spec: `ReleaseSink(sink, status)`. -/
def ReleaseSink (c : CscoreC) (sink : CS_Sink) (r : Registry) : Status × Registry :=
  r.release c .sink sink

/-- One call made by a client of the registry: a creation (of any source or
sink), `CopySource`/`CopySink` or `ReleaseSource`/`ReleaseSink` on a handle. -/
inductive Call where
  | create (k : ObjectKind) (name : String)
  | copy (k : ObjectKind) (h : CS_Handle)
  | release (k : ObjectKind) (h : CS_Handle)
  deriving DecidableEq, Repr

/-- The registry after one call. -/
def Registry.step (c : CscoreC) (r : Registry) : Call → Registry
  | .create k name => (r.create c k name).2
  | .copy .source h => (CopySource c h r).2.2
  | .copy .sink h => (CopySink c h r).2.2
  | .release .source h => (ReleaseSource c h r).2
  | .release .sink h => (ReleaseSink c h r).2

/-- The registry after a sequence of calls, made in list order. -/
def Registry.run (c : CscoreC) (r : Registry) (cs : List Call) : Registry :=
  cs.foldl (Registry.step c) r

/-- An empty registry. -/
def Registry.empty : Registry :=
  { objects := fun _ => none, next := 0, trace := [] }

/-- Modelled from the spec: I1, a handle is valid iff the registry's reference
count for it is positive. -/
def Registry.valid (r : Registry) (k : ObjectKind) (h : CS_Handle) : Bool :=
  (r.resolve k h).isSome

/-- The reference count the registry holds for a handle, if it is valid. -/
def Registry.refcount (r : Registry) (k : ObjectKind) (h : CS_Handle) : Option Nat :=
  (r.resolve k h).map Object.refcount

/-! ### Property subsystem (spec 4.2) -/

/-- Modelled from the spec: a property (section 3): it belongs to exactly one
source, has a name and a type; an integer property has minimum, maximum, step
and default; an enumerated one has a list of choices. -/
structure PropertyData where
  source : CS_Source
  name : String
  propType : CS_PropertyType
  minimum : Int
  maximum : Int
  step : Int
  defaultValue : Int
  value : Int
  valueStr : String
  choices : List String
  deriving DecidableEq, Repr

/-- Modelled from the spec: the property subsystem, whose implementation is
not among the sources: the properties by handle and the notifier queue,
oldest event first. -/
structure PropertySubsystem where
  properties : CS_Property → Option PropertyData
  events : List RawEvent

/-- Modelled from the spec: reading an integer attribute of a property; a
handle that does not resolve reports `InvalidHandle`, a string property has no
integer attributes and reports `WrongPropertyType`. -/
def readProperty (f : PropertyData → Int) (property : CS_Property) (ps : PropertySubsystem) :
    Except Status Int :=
  match ps.properties property with
  | none => .error Status.InvalidHandle
  | some p => if p.propType = .kString then .error Status.WrongPropertyType else .ok (f p)

/-- Modelled from the spec: `GetPropertyType(property, status)`. -/
def GetPropertyType (property : CS_Property) (ps : PropertySubsystem) :
    Except Status CS_PropertyType :=
  match ps.properties property with
  | none => .error Status.InvalidHandle
  | some p => .ok p.propType

/-- Modelled from the spec: `GetProperty(property, status)`, the stored
value. -/
def GetProperty (property : CS_Property) (ps : PropertySubsystem) : Except Status Int :=
  readProperty PropertyData.value property ps

/-- Modelled from the spec: `GetPropertyMin(property, status)`. -/
def GetPropertyMin (property : CS_Property) (ps : PropertySubsystem) : Except Status Int :=
  readProperty PropertyData.minimum property ps

/-- Modelled from the spec: `GetPropertyMax(property, status)`. -/
def GetPropertyMax (property : CS_Property) (ps : PropertySubsystem) : Except Status Int :=
  readProperty PropertyData.maximum property ps

/-- Modelled from the spec: a successful write (4.2): the value is stored, and
a property-value-updated event, attributed to the owning source, is enqueued
unconditionally. -/
def PropertySubsystem.store (c : CscoreC) (ps : PropertySubsystem) (property : CS_Property)
    (p : PropertyData) (value : Int) : PropertySubsystem :=
  { properties := Function.update ps.properties property (some { p with value := value })
    events := ps.events ++
      [RawEvent.ctorProperty c p.name p.source .kSourcePropertyValueUpdated property p.propType
        value p.valueStr] }

/-- Modelled from the spec: `SetProperty(property, value, status)` (4.2).  The
value is validated against the declared type; for a numeric (integer) property
a write outside `[minimum, maximum]` or misaligned to the step is rejected,
never clamped, and nothing changes.  Section 8 names the status of the
rejection `ValueOutOfRange`.  The spec does not say from where steps are
counted, so the alignment test `aligned` is an argument. -/
def SetProperty (c : CscoreC) (aligned : PropertyData → Int → Bool) (property : CS_Property)
    (value : Int) (ps : PropertySubsystem) : Status × PropertySubsystem :=
  match ps.properties property with
  | none => (Status.InvalidHandle, ps)
  | some p =>
    match p.propType with
    | .kString => (Status.WrongPropertyType, ps)
    | .kInteger =>
      if value < p.minimum ∨ p.maximum < value ∨ aligned p value = false then
        (Status.ValueOutOfRange, ps)
      else
        (Status.Ok, ps.store c property p value)
    | .kBoolean => (Status.Ok, ps.store c property p value)
    | .kEnum => (Status.Ok, ps.store c property p value)

/-! ### Video-mode catalog (spec 4.3) -/

/-- Modelled from the spec: what the catalog keeps for one source (section 3):
its name, its one active mode and its supported modes. -/
structure SourceModes where
  name : String
  mode : VideoMode
  videoModes : List VideoMode
  deriving DecidableEq, Repr

/-- Modelled from the spec: the video-mode catalog, whose implementation is
not among the sources: the sources by handle and the notifier queue, oldest
event first. -/
structure VideoModeCatalog where
  sources : CS_Source → Option SourceModes
  events : List RawEvent

/-- Modelled from the spec: `GetSourceVideoMode(source, status)`, the active
mode. -/
def GetSourceVideoMode (source : CS_Source) (vc : VideoModeCatalog) : Except Status VideoMode :=
  match vc.sources source with
  | none => .error Status.InvalidHandle
  | some s => .ok s.mode

/-- Modelled from the spec: `EnumerateSourceVideoModes(source, status)`, the
supported modes. -/
def EnumerateSourceVideoModes (source : CS_Source) (vc : VideoModeCatalog) :
    Except Status (List VideoMode) :=
  match vc.sources source with
  | none => .error Status.InvalidHandle
  | some s => .ok s.videoModes

/-- Modelled from the spec: `SetSourceVideoMode(source, mode, status)` (4.3):
either the whole tuple matches a supported mode, it becomes the active mode
and a mode-changed event fires, or the call fails with the mode-not-supported
status and the active mode is unchanged. -/
def SetSourceVideoMode (c : CscoreC) (source : CS_Source) (mode : VideoMode)
    (vc : VideoModeCatalog) : Bool × Status × VideoModeCatalog :=
  match vc.sources source with
  | none => (false, Status.InvalidHandle, vc)
  | some s =>
    if mode ∈ s.videoModes then
      (true, Status.Ok,
        { sources := Function.update vc.sources source (some { s with mode := mode })
          events := vc.events ++ [RawEvent.ctorMode c s.name source mode] })
    else
      (false, Status.ValueNotSupported, vc)

/-- Modelled from the spec: `SetSourcePixelFormat(source, pixelFormat,
status)` (4.3): the full tuple is built from the current values with the
requested field applied, then switched to. -/
def SetSourcePixelFormat (c : CscoreC) (source : CS_Source)
    (pixelFormat : VideoMode.PixelFormat) (vc : VideoModeCatalog) :
    Bool × Status × VideoModeCatalog :=
  match vc.sources source with
  | none => (false, Status.InvalidHandle, vc)
  | some s => SetSourceVideoMode c source { s.mode with pixelFormat := pixelFormat.toInt c } vc

/-- Modelled from the spec: `SetSourceResolution(source, width, height,
status)` (4.3): the full tuple is built from the current values with the
requested fields applied, then switched to. -/
def SetSourceResolution (c : CscoreC) (source : CS_Source) (width height : Int)
    (vc : VideoModeCatalog) : Bool × Status × VideoModeCatalog :=
  match vc.sources source with
  | none => (false, Status.InvalidHandle, vc)
  | some s => SetSourceVideoMode c source { s.mode with width := width, height := height } vc

/-- Modelled from the spec: `SetSourceFPS(source, fps, status)` (4.3): the
full tuple is built from the current values with the requested field applied,
then switched to. -/
def SetSourceFPS (c : CscoreC) (source : CS_Source) (fps : Int) (vc : VideoModeCatalog) :
    Bool × Status × VideoModeCatalog :=
  match vc.sources source with
  | none => (false, Status.InvalidHandle, vc)
  | some s => SetSourceVideoMode c source { s.mode with fps := fps } vc

/-! ### Sample states -/

/-- An integer property `exposure` of source `1`, range `[0, 100]`, value 50. -/
def sampleProperty : PropertyData :=
  { source := 1, name := "exposure", propType := .kInteger, minimum := 0, maximum := 100,
    step := 1, defaultValue := 50, value := 50, valueStr := "", choices := [] }

/-- A property subsystem holding `sampleProperty` under handle `7`. -/
def samplePropertySubsystem : PropertySubsystem :=
  { properties := fun h => if h = 7 then some sampleProperty else none, events := [] }

/-- Source `cam0` in MJPEG 640x480 at 30 fps, supporting that mode and MJPEG
320x240 at 30 fps. -/
def sampleSourceModes : SourceModes :=
  { name := "cam0"
    mode := VideoMode.ctor4 sampleHeader .kMJPEG 640 480 30
    videoModes :=
      [VideoMode.ctor4 sampleHeader .kMJPEG 640 480 30,
        VideoMode.ctor4 sampleHeader .kMJPEG 320 240 30] }

/-- A catalog holding `sampleSourceModes` under handle `1`. -/
def sampleCatalog : VideoModeCatalog :=
  { sources := fun h => if h = 1 then some sampleSourceModes else none, events := [] }

/-- The agreement between the handle members of an event and its kind that
the comment on the members states (`Valid for kSource* and kSink*
respectively`): `sinkHandle` differs from `CS_INVALID_HANDLE` only if the
kind is a `kSink*` one, `sourceHandle` only if it is a `kSource*` one, and at
most one of the two differs. -/
def RawEvent.HandlesAgree (c : CscoreC) (e : RawEvent) : Prop :=
  (e.sinkHandle ≠ c.CS_INVALID_HANDLE → ∃ t, e.type = some t ∧ t.isSink = true) ∧
  (e.sourceHandle ≠ c.CS_INVALID_HANDLE → ∃ t, e.type = some t ∧ t.isSource = true) ∧
  (e.sourceHandle = c.CS_INVALID_HANDLE ∨ e.sinkHandle = c.CS_INVALID_HANDLE)

/-! ## Auxiliary facts -/

/-- C1: for every name, handle `h` and event kind `t`, the three-argument
constructor stores `t` and the name; it stores `h` in `sinkHandle` and leaves
`sourceHandle` at `CS_INVALID_HANDLE` when `t` is one of the four `kSink*`
kinds, and stores `h` in `sourceHandle` and leaves `sinkHandle` at
`CS_INVALID_HANDLE` when `t` is one of the other nine kinds, which are the
`kSource*` kinds. -/
theorem RawEvent_ctor3_records_handle (c : CscoreC) (name : String) (h : CS_Handle)
    (t : EventType) :
    (RawEvent.ctor3 c name h t).type = some t ∧
    (RawEvent.ctor3 c name h t).name = name ∧
    ((t = .kSinkCreated ∨ t = .kSinkDestroyed ∨ t = .kSinkEnabled ∨ t = .kSinkDisabled) →
      (RawEvent.ctor3 c name h t).sinkHandle = h ∧
      (RawEvent.ctor3 c name h t).sourceHandle = c.CS_INVALID_HANDLE) ∧
    ((t = .kSourceCreated ∨ t = .kSourceDestroyed ∨ t = .kSourceConnected ∨
        t = .kSourceDisconnected ∨ t = .kSourceVideoModesUpdated ∨
        t = .kSourceVideoModeChanged ∨ t = .kSourcePropertyCreated ∨
        t = .kSourcePropertyValueUpdated ∨ t = .kSourcePropertyChoicesUpdated) →
      (RawEvent.ctor3 c name h t).sourceHandle = h ∧
      (RawEvent.ctor3 c name h t).sinkHandle = c.CS_INVALID_HANDLE) ∧
    (RawEvent.ctor3 c name h t).sinkHandle = (if t.isSink then h else c.CS_INVALID_HANDLE) ∧
    (RawEvent.ctor3 c name h t).sourceHandle = (if t.isSource then h else c.CS_INVALID_HANDLE) ∧
    t.isSource = !t.isSink := by
  cases t <;> simp [RawEvent.ctor3, RawEvent.ctor, EventType.isSink, EventType.isSource]

/-- C2: for every name, source handle `s` and mode `m`, the mode constructor
builds a `kSourceVideoModeChanged` event attributed to `s` alone, carrying the
name and a mode payload equal to `m` field for field; this includes the
default (unknown) mode. -/
theorem RawEvent_ctorMode_payload (c : CscoreC) (name : String) (s : CS_Source)
    (m : VideoMode) :
    (RawEvent.ctorMode c name s m).type = some EventType.kSourceVideoModeChanged ∧
    (RawEvent.ctorMode c name s m).sourceHandle = s ∧
    (RawEvent.ctorMode c name s m).sinkHandle = c.CS_INVALID_HANDLE ∧
    (RawEvent.ctorMode c name s m).name = name ∧
    (RawEvent.ctorMode c name s m).mode = m ∧
    (RawEvent.ctorMode c name s m).mode.pixelFormat = m.pixelFormat ∧
    (RawEvent.ctorMode c name s m).mode.width = m.width ∧
    (RawEvent.ctorMode c name s m).mode.height = m.height ∧
    (RawEvent.ctorMode c name s m).mode.fps = m.fps ∧
    (RawEvent.ctorMode c name s VideoMode.ctor).mode = VideoMode.ctor ∧
    (RawEvent.ctorMode c name s VideoMode.ctor).type = some EventType.kSourceVideoModeChanged := by
  simp [RawEvent.ctorMode, RawEvent.ctor]

/-- C3: for every name, source handle, event kind, property handle, property
type, integer and string, the property constructor stores exactly these as
`type`, `sourceHandle`, `name`, `propertyHandle`, `propertyType`, `value` and
`valueStr`; `sinkHandle` is `CS_INVALID_HANDLE` and `mode` is the default
all-zero `VideoMode`. -/
theorem RawEvent_ctorProperty_payload (c : CscoreC) (name : String) (s : CS_Source)
    (t : EventType) (p : CS_Property) (pt : CS_PropertyType) (v : Int) (vs : String) :
    (RawEvent.ctorProperty c name s t p pt v vs).type = some t ∧
    (RawEvent.ctorProperty c name s t p pt v vs).sourceHandle = s ∧
    (RawEvent.ctorProperty c name s t p pt v vs).name = name ∧
    (RawEvent.ctorProperty c name s t p pt v vs).propertyHandle = some p ∧
    (RawEvent.ctorProperty c name s t p pt v vs).propertyType = some pt ∧
    (RawEvent.ctorProperty c name s t p pt v vs).value = some v ∧
    (RawEvent.ctorProperty c name s t p pt v vs).valueStr = vs ∧
    (RawEvent.ctorProperty c name s t p pt v vs).sinkHandle = c.CS_INVALID_HANDLE ∧
    (RawEvent.ctorProperty c name s t p pt v vs).mode = VideoMode.ctor ∧
    (RawEvent.ctorProperty c name s t p pt v vs).mode =
      { pixelFormat := 0, width := 0, height := 0, fps := 0 } := by
  simp [RawEvent.ctorProperty, RawEvent.ctor, VideoMode.ctor]

/-- C4: `VideoMode(f, w, h, r)` stores its four arguments unchanged, so modes
built from equal arguments are equal field for field, and `VideoMode()` has
all four members equal to 0.  With `CS_PIXFMT_UNKNOWN` being 0 in `cscore_c.h`,
that pixel format 0 is `VideoMode::kUnknown`. -/
theorem VideoMode_is_value_tuple (c : CscoreC) (hU : c.CS_PIXFMT_UNKNOWN = 0)
    (f : VideoMode.PixelFormat) (w h r : Int) :
    (VideoMode.ctor4 c f w h r).pixelFormat = f.toInt c ∧
    (VideoMode.ctor4 c f w h r).width = w ∧
    (VideoMode.ctor4 c f w h r).height = h ∧
    (VideoMode.ctor4 c f w h r).fps = r ∧
    (∀ (f1 : VideoMode.PixelFormat) (w1 h1 r1 : Int),
      (f1.toInt c = f.toInt c ∧ w1 = w ∧ h1 = h ∧ r1 = r ↔
        VideoMode.ctor4 c f1 w1 h1 r1 = VideoMode.ctor4 c f w h r)) ∧
    VideoMode.ctor.pixelFormat = 0 ∧
    VideoMode.ctor.width = 0 ∧
    VideoMode.ctor.height = 0 ∧
    VideoMode.ctor.fps = 0 ∧
    VideoMode.ctor.pixelFormat = VideoMode.PixelFormat.kUnknown.toInt c ∧
    VideoMode.ctor = VideoMode.ctor4 c .kUnknown 0 0 0 := by
  simp [VideoMode.ctor4, VideoMode.ctor, VideoMode.PixelFormat.toInt, hU]

/-- The value-tuple property at the sample header and MJPEG 640x480 at 30
fps. -/
theorem VideoMode_is_value_tuple_witness :
    sampleHeader.CS_PIXFMT_UNKNOWN = 0 ∧
    (VideoMode.ctor4 sampleHeader .kMJPEG 640 480 30).pixelFormat = 1 ∧
    (VideoMode.ctor4 sampleHeader .kMJPEG 640 480 30).width = 640 ∧
    VideoMode.ctor.pixelFormat = VideoMode.PixelFormat.kUnknown.toInt sampleHeader :=
  have h := VideoMode_is_value_tuple sampleHeader (by decide) .kMJPEG 640 480 30
  ⟨by decide, h.1, h.2.1, h.2.2.2.2.2.2.2.2.2.1⟩

/-- C8: the code of `operator bool` returns `pixelFormat == kUnknown`: the
conversion is true exactly for a mode whose pixel format is `kUnknown`, so for
no mode does it agree with "true iff the pixel format is not `kUnknown`".
With the pixel formats numbered from 0, `VideoMode(kMJPEG, 640, 480, 30)`
converts to false and `VideoMode()` to true. -/
theorem VideoMode_operatorBool_inverted :
    (∀ (c : CscoreC) (m : VideoMode),
      (m.operatorBool c = true ↔ m.pixelFormat = VideoMode.PixelFormat.kUnknown.toInt c) ∧
      ¬ (m.operatorBool c = true ↔ m.pixelFormat ≠ VideoMode.PixelFormat.kUnknown.toInt c)) ∧
    (VideoMode.ctor4 sampleHeader .kMJPEG 640 480 30).operatorBool sampleHeader = false ∧
    VideoMode.ctor.operatorBool sampleHeader = true := by
  refine ⟨fun c m => ?_, by decide, by decide⟩
  have h1 : m.operatorBool c = true ↔ m.pixelFormat = VideoMode.PixelFormat.kUnknown.toInt c := by
    simp [VideoMode.operatorBool]
  refine ⟨h1, fun h2 => ?_⟩
  by_cases e : m.pixelFormat = VideoMode.PixelFormat.kUnknown.toInt c
  · exact h2.1 (h1.2 e) e
  · exact e (h1.1 (h2.2 e))

/-- C9, as stated, fails: the property constructor given a `kSink*` kind and a
valid source handle builds an event whose `sourceHandle` differs from
`CS_INVALID_HANDLE` although its kind is not a `kSource*` one. -/
theorem RawEvent_ctorProperty_sink_kind_disagrees :
    ¬ RawEvent.HandlesAgree sampleHeader
      (RawEvent.ctorProperty sampleHeader "cam0" 1 .kSinkCreated 7 .kInteger 50 "") := by
  intro h
  obtain ⟨t, ht, hs⟩ := h.2.1 (by decide)
  have : t = .kSinkCreated := by
    simp [RawEvent.ctorProperty] at ht
    exact ht.symm
  subst this
  exact absurd hs (by decide)

/-- C9, amended: the handle members agree with the kind for every event built
by the three-argument constructor and by the mode constructor, and for an
event built by the property constructor exactly when the kind passed is one of
the nine `kSource*` kinds or the source handle passed is `CS_INVALID_HANDLE`;
the property constructor always leaves `sinkHandle` at `CS_INVALID_HANDLE`, so
at most one of the two handles differs from it. -/
theorem RawEvent_handles_agree (c : CscoreC) (name : String) (h : CS_Handle) (t : EventType)
    (s : CS_Source) (m : VideoMode) (p : CS_Property) (pt : CS_PropertyType) (v : Int)
    (vs : String) :
    RawEvent.HandlesAgree c (RawEvent.ctor3 c name h t) ∧
    RawEvent.HandlesAgree c (RawEvent.ctorMode c name s m) ∧
    (RawEvent.HandlesAgree c (RawEvent.ctorProperty c name s t p pt v vs) ↔
      (t.isSource = true ∨ s = c.CS_INVALID_HANDLE)) ∧
    (RawEvent.ctorProperty c name s t p pt v vs).sinkHandle = c.CS_INVALID_HANDLE := by
  refine ⟨?_, ?_, ?_, rfl⟩
  · cases t <;>
      simp [RawEvent.HandlesAgree, RawEvent.ctor3, RawEvent.ctor, EventType.isSink,
        EventType.isSource]
  · simp [RawEvent.HandlesAgree, RawEvent.ctorMode, RawEvent.ctor, EventType.isSource]
  · by_cases hs : s = c.CS_INVALID_HANDLE
    · simp [RawEvent.HandlesAgree, RawEvent.ctorProperty, RawEvent.ctor, hs]
    · simp [RawEvent.HandlesAgree, RawEvent.ctorProperty, RawEvent.ctor, hs]

/-- C10: for every name, handle and kind, the event built by the
three-argument constructor has the default-constructed `VideoMode` as its
mode, all four members 0, whatever the handle and the kind; the same holds
for the events built by the property constructor and by the defaulted
constructor, that is, for every constructor but the mode constructor. -/
theorem RawEvent_ctor3_mode_default (c : CscoreC) (name : String) (h : CS_Handle)
    (t : EventType) (s : CS_Source) (p : CS_Property) (pt : CS_PropertyType) (v : Int)
    (vs : String) :
    (RawEvent.ctor3 c name h t).mode = VideoMode.ctor ∧
    (RawEvent.ctor3 c name h t).mode.pixelFormat = 0 ∧
    (RawEvent.ctor3 c name h t).mode.width = 0 ∧
    (RawEvent.ctor3 c name h t).mode.height = 0 ∧
    (RawEvent.ctor3 c name h t).mode.fps = 0 ∧
    (RawEvent.ctorProperty c name s t p pt v vs).mode = VideoMode.ctor ∧
    (RawEvent.ctor c).mode = VideoMode.ctor := by
  cases t <;> simp [RawEvent.ctor3, RawEvent.ctorProperty, RawEvent.ctor, VideoMode.ctor]

/-! ## The components modelled from the specification -/

/-- A run of the registry model: a source is created in the empty registry
(handle 0), copied once and released twice, with a sink created in between.
The handle is valid with count 1 after one release and invalid after the
second; a copy attempted afterwards does not revive it. -/
theorem Registry_sample_run :
    (Registry.empty.create sampleHeader .source "cam0").1 = 0 ∧
    ((Registry.empty.create sampleHeader .source "cam0").2.run sampleHeader
      [.copy .source 0, .create .sink "srv", .release .source 0]).refcount .source 0 = some 1 ∧
    ((Registry.empty.create sampleHeader .source "cam0").2.run sampleHeader
      [.copy .source 0, .create .sink "srv", .release .source 0,
        .release .source 0]).valid .source 0 = false ∧
    ((Registry.empty.create sampleHeader .source "cam0").2.run sampleHeader
      [.copy .source 0, .create .sink "srv", .release .source 0,
        .release .source 0, .copy .source 0]).valid .source 0 = false ∧
    ((Registry.empty.create sampleHeader .source "cam0").2.run sampleHeader
      [.copy .source 0, .create .sink "srv", .release .source 0,
        .release .source 0, .copy .source 0]).valid .sink 1 = true := by
  decide

/-- C6: for every integer property with bounds `[minimum, maximum]` and every
integer `v`: if `v` is below the minimum or above the maximum, `SetProperty`
reports `ValueOutOfRange` and changes nothing, so `GetProperty` still returns
the previous value (no clamping) and no event is enqueued; if `v` is valid,
`GetProperty` afterwards returns `v` and exactly one event is appended to the
queue, whether or not `v` equals the previous value: an event of kind
`kSourcePropertyValueUpdated` attributed to the owning source, naming the
property, its type and the new value, so the number of property-value-updated
events in the queue grows by one. -/
theorem SetProperty_validates (c : CscoreC) (aligned : PropertyData → Int → Bool)
    (property : CS_Property) (v : Int) (ps : PropertySubsystem) (p : PropertyData)
    (hp : ps.properties property = some p) (hnum : p.propType = .kInteger) :
    GetProperty property ps = .ok p.value ∧
    GetPropertyMin property ps = .ok p.minimum ∧
    GetPropertyMax property ps = .ok p.maximum ∧
    ((v < p.minimum ∨ p.maximum < v) →
      (SetProperty c aligned property v ps).1 = Status.ValueOutOfRange ∧
      (SetProperty c aligned property v ps).2 = ps ∧
      (SetProperty c aligned property v ps).2.events = ps.events ∧
      GetProperty property (SetProperty c aligned property v ps).2 = .ok p.value) ∧
    ((p.minimum ≤ v ∧ v ≤ p.maximum ∧ aligned p v = true) →
      (SetProperty c aligned property v ps).1 = Status.Ok ∧
      GetProperty property (SetProperty c aligned property v ps).2 = .ok v ∧
      (SetProperty c aligned property v ps).2.events = ps.events ++
        [RawEvent.ctorProperty c p.name p.source .kSourcePropertyValueUpdated property
          p.propType v p.valueStr] ∧
      (SetProperty c aligned property v ps).2.events = ps.events ++
        [{ type := some EventType.kSourcePropertyValueUpdated
           sourceHandle := p.source
           sinkHandle := c.CS_INVALID_HANDLE
           name := p.name
           mode := { pixelFormat := 0, width := 0, height := 0, fps := 0 }
           propertyHandle := some property
           propertyType := some CS_PropertyType.kInteger
           value := some v
           valueStr := p.valueStr }] ∧
      ((SetProperty c aligned property v ps).2.events.filter
          (fun e => e.type == some EventType.kSourcePropertyValueUpdated)).length =
        (ps.events.filter
          (fun e => e.type == some EventType.kSourcePropertyValueUpdated)).length + 1) := by
  have hg : ∀ f, readProperty f property ps = .ok (f p) := by
    intro f
    simp [readProperty, hp, hnum]
  refine ⟨hg _, hg _, hg _, ?_, ?_⟩
  · intro hout
    have hc : v < p.minimum ∨ p.maximum < v ∨ aligned p v = false := by
      rcases hout with h1 | h1
      · exact Or.inl h1
      · exact Or.inr (Or.inl h1)
    have hS : SetProperty c aligned property v ps = (Status.ValueOutOfRange, ps) := by
      simp only [SetProperty, hp, hnum, hc, if_true]
    rw [hS]
    exact ⟨rfl, rfl, rfl, hg _⟩
  · rintro ⟨h1, h2, h3⟩
    have hc : ¬ (v < p.minimum ∨ p.maximum < v ∨ aligned p v = false) := by
      rintro (h | h | h)
      · omega
      · omega
      · rw [h3] at h
        cases h
    have hS : SetProperty c aligned property v ps = (Status.Ok, ps.store c property p v) := by
      simp only [SetProperty, hp, hnum, hc, if_false]
    rw [hS]
    refine ⟨rfl, ?_, rfl, ?_, ?_⟩
    · simp [GetProperty, readProperty, PropertySubsystem.store, hnum]
    · simp [PropertySubsystem.store, RawEvent.ctorProperty, RawEvent.ctor, VideoMode.ctor, hnum]
    · simp [PropertySubsystem.store, RawEvent.ctorProperty, RawEvent.ctor, List.filter_append]

/-- Writing 150 to the sample property, whose range is `[0, 100]`, is rejected
and the stored value stays 50; writing 50, the value it already has, is
accepted and enqueues one value-updated event for property 7 of source 1. -/
theorem SetProperty_validates_witness :
    samplePropertySubsystem.properties 7 = some sampleProperty ∧
    sampleProperty.propType = .kInteger ∧
    (SetProperty sampleHeader (fun _ _ => true) 7 150 samplePropertySubsystem).1 =
      Status.ValueOutOfRange ∧
    GetProperty 7 (SetProperty sampleHeader (fun _ _ => true) 7 150 samplePropertySubsystem).2 =
      .ok 50 ∧
    (SetProperty sampleHeader (fun _ _ => true) 7 50 samplePropertySubsystem).2.events =
      [] ++
      [{ type := some EventType.kSourcePropertyValueUpdated
         sourceHandle := 1
         sinkHandle := -2000
         name := "exposure"
         mode := { pixelFormat := 0, width := 0, height := 0, fps := 0 }
         propertyHandle := some 7
         propertyType := some CS_PropertyType.kInteger
         value := some 50
         valueStr := "" }] :=
  have h := SetProperty_validates sampleHeader (fun _ _ => true) 7 150 samplePropertySubsystem
    sampleProperty rfl rfl
  have h2 := h.2.2.2.1 (Or.inr (by decide))
  have g := SetProperty_validates sampleHeader (fun _ _ => true) 7 50 samplePropertySubsystem
    sampleProperty rfl rfl
  have g2 := g.2.2.2.2 ⟨by decide, by decide, rfl⟩
  ⟨rfl, rfl, h2.1, h2.2.2.2, g2.2.2.2.1⟩

/-- C7: for every source with active mode `(f, w0, h0, r)` and every requested
width `w` and height `h`, `SetSourceResolution` either returns true, and then
the active mode is exactly `(f, w, h, r)` and is a member of the supported
modes, or returns false, and then nothing has changed and `GetSourceVideoMode`
still returns `(f, w0, h0, r)`.  It returns true exactly if `(f, w, h, r)` is
a supported mode, and the supported modes are the same after the call. -/
theorem SetSourceResolution_all_or_nothing (c : CscoreC) (source : CS_Source) (w h : Int)
    (vc : VideoModeCatalog) (m0 : VideoMode) (ms : List VideoMode)
    (hm : GetSourceVideoMode source vc = .ok m0)
    (hms : EnumerateSourceVideoModes source vc = .ok ms) :
    (((SetSourceResolution c source w h vc).1 = true ∧
        GetSourceVideoMode source (SetSourceResolution c source w h vc).2.2 =
          .ok { pixelFormat := m0.pixelFormat, width := w, height := h, fps := m0.fps } ∧
        ({ pixelFormat := m0.pixelFormat, width := w, height := h, fps := m0.fps } : VideoMode)
          ∈ ms) ∨
      ((SetSourceResolution c source w h vc).1 = false ∧
        (SetSourceResolution c source w h vc).2.2 = vc ∧
        GetSourceVideoMode source (SetSourceResolution c source w h vc).2.2 = .ok m0)) ∧
    ((SetSourceResolution c source w h vc).1 = true ↔
      ({ pixelFormat := m0.pixelFormat, width := w, height := h, fps := m0.fps } : VideoMode)
        ∈ ms) ∧
    EnumerateSourceVideoModes source (SetSourceResolution c source w h vc).2.2 = .ok ms := by
  cases hs : vc.sources source with
  | none => simp [GetSourceVideoMode, hs] at hm
  | some s =>
    simp only [GetSourceVideoMode, hs, Except.ok.injEq] at hm
    simp only [EnumerateSourceVideoModes, hs, Except.ok.injEq] at hms
    subst hm hms
    by_cases hin :
        ({ pixelFormat := s.mode.pixelFormat, width := w, height := h, fps := s.mode.fps } :
          VideoMode) ∈ s.videoModes
    · simp [SetSourceResolution, SetSourceVideoMode, hs, hin, GetSourceVideoMode,
        EnumerateSourceVideoModes]
    · simp [SetSourceResolution, SetSourceVideoMode, hs, hin, GetSourceVideoMode,
        EnumerateSourceVideoModes]

/-- Switching the sample source to 320x240 succeeds exactly because MJPEG
320x240 at 30 fps is one of its supported modes. -/
theorem SetSourceResolution_all_or_nothing_witness :
    GetSourceVideoMode 1 sampleCatalog = .ok (VideoMode.ctor4 sampleHeader .kMJPEG 640 480 30) ∧
    EnumerateSourceVideoModes 1 sampleCatalog = .ok sampleSourceModes.videoModes ∧
    ((SetSourceResolution sampleHeader 1 320 240 sampleCatalog).1 = true ↔
      ({ pixelFormat := 1, width := 320, height := 240, fps := 30 } : VideoMode)
        ∈ sampleSourceModes.videoModes) :=
  ⟨rfl, rfl,
    (SetSourceResolution_all_or_nothing sampleHeader 1 320 240 sampleCatalog
      (VideoMode.ctor4 sampleHeader .kMJPEG 640 480 30) sampleSourceModes.videoModes rfl rfl).2.1⟩

end cs
